import Mathlib

/-!
Shallow embedding of the dataset-import endpoint of `backend/products/views.py`
(`import_dataset`). The pandas layer is modelled as follows: a parsed cell is an
`Option String`, where `none` stands for a pandas missing value (NaN) — produced
by a blank cell or by one of the default NA tokens of `read_csv` (such as
"N/A"); `some s` is a present raw cell, as read when the column has object
dtype. `pd.notna` is `Option.isSome`, Python `str.strip` is `String.trim`,
Python `float(...)` and `int(...)` on strings are `pyFloat?` / `pyInt?`, with
`none` standing for the raised `ValueError`; calling `.strip()` on a NaN cell
raises `AttributeError`. Exception message texts are Python runtime strings,
rendered here as representative stand-ins; only the "Ligne {index + 2}: "
prefix comes from the source. Django storage is modelled as in-memory lists
with `find?` for `.filter(...).first()` and `get_or_create`.
-/

/-- Default NA tokens of pandas `read_csv` (the subset relevant here): a raw
CSV cell equal to one of these, or blank, is loaded as NaN (`none`). -/
def pandasNaTokens : List String :=
  ["", "N/A", "NA", "n/a", "NaN", "nan", "NULL", "null", "#N/A"]

/-- Models how pandas `read_csv` loads one raw CSV cell: NA tokens and blank
cells become missing values (`none`), anything else is kept as the raw text. -/
def mkCell (s : String) : Option String :=
  if pandasNaTokens.contains s then none else some s

/-- Python `str.strip()`: drop whitespace from both ends. -/
def pyStrip (s : String) : String :=
  String.mk (((s.data.dropWhile Char.isWhitespace).reverse.dropWhile Char.isWhitespace).reverse)

/-- Digits-only accumulation, `acc` the running value. -/
def digitsValAux : List Char → Nat → Nat
  | [], acc => acc
  | c :: cs, acc => digitsValAux cs (acc * 10 + (c.toNat - 48))

/-- Numeric value of a digit list (meaningful when all are digits). -/
def digitsVal (cs : List Char) : Nat := digitsValAux cs 0

/-- Whether every character is a decimal digit. -/
def allDigits (cs : List Char) : Bool := cs.all Char.isDigit

/-- Parse a nonempty all-digit character list. -/
def parseDigits (cs : List Char) : Option Nat :=
  if cs ≠ [] ∧ allDigits cs then some (digitsVal cs) else none

/-- Python `int(s)` on a string: strips surrounding whitespace, optional sign,
then decimal digits only; anything else raises ValueError (`none`).
(Underscore separators of Python numeric literals are not modelled.) -/
def pyInt? (s : String) : Option Int :=
  match (pyStrip s).data with
  | '-' :: rest => (parseDigits rest).map (fun n => -(Int.ofNat n))
  | '+' :: rest => (parseDigits rest).map Int.ofNat
  | rest => (parseDigits rest).map Int.ofNat

/-- Ten to the power `n`. -/
def tenPow : Nat → Nat
  | 0 => 1
  | n + 1 => 10 * tenPow n

/-- Magnitude part of Python `float(s)` as (numerator scaled by the fraction
length, fraction length): digits with at most one dot and at least one digit
overall ("10.5", "12", "5.", ".5"); exponent forms and inf/nan literals are
not modelled. -/
def pyFloatParts (cs : List Char) : Option (Nat × Nat) :=
  let ip := cs.takeWhile (fun c => c != '.')
  match cs.dropWhile (fun c => c != '.') with
  | [] => if ip ≠ [] ∧ allDigits ip then some (digitsVal ip, 0) else none
  | _ :: fp =>
    if fp.contains '.' then none
    else if (ip ≠ [] ∨ fp ≠ []) ∧ allDigits ip ∧ allDigits fp then
      some (digitsVal ip * tenPow fp.length + digitsVal fp, fp.length)
    else none

/-- Python `float(s)` on a string: stripped, optionally signed decimal literal,
as the exact rational it denotes; failure (`none`) models the raised
ValueError. -/
def pyFloat? (s : String) : Option ℚ :=
  match (pyStrip s).data with
  | '-' :: rest => (pyFloatParts rest).map (fun p => Rat.divInt (-(Int.ofNat p.1)) (Int.ofNat (tenPow p.2)))
  | '+' :: rest => (pyFloatParts rest).map (fun p => Rat.divInt (Int.ofNat p.1) (Int.ofNat (tenPow p.2)))
  | rest => (pyFloatParts rest).map (fun p => Rat.divInt (Int.ofNat p.1) (Int.ofNat (tenPow p.2)))

/-- One parsed row of the DataFrame, restricted to the seven required columns
(extra columns are never read by the loop). `none` is a pandas missing value. -/
structure Row where
  nom : Option String
  reference : Option String
  categorie : Option String
  prix : Option String
  seuil_alerte : Option String
  fournisseur : Option String
  stock : Option String
deriving DecidableEq, Repr

/-- A `suppliers.models.Fournisseur` record, natural key (nom, magasin). -/
structure Fournisseur where
  nom : String
  magasin : Nat
  adresse : String
  contact : String
deriving DecidableEq, Repr

/-- A `products.models.Produit` record; `id` is the database primary key,
`fournisseur` the linked supplier (by its in-store natural key `nom`). -/
structure Produit where
  id : Nat
  nom : String
  reference : String
  categorie : String
  prix_unitaire : ℚ
  seuil_alerte : Int
  fournisseur : Option String
  magasin : Nat
deriving DecidableEq, Repr

/-- A `stock.models.Stock` record, keyed by (produit id, magasin). -/
structure Stock where
  produit : Nat
  magasin : Nat
  quantite : Int
deriving DecidableEq, Repr

/-- The relational store touched by the import: three tables plus the next
free primary key for product creation. -/
structure DB where
  fournisseurs : List Fournisseur
  produits : List Produit
  stocks : List Stock
  nextId : Nat
deriving DecidableEq, Repr

/-- The `stats` dictionary accumulated by `import_dataset`. -/
structure Stats where
  produits_created : Nat
  produits_updated : Nat
  fournisseurs_created : Nat
  stocks_created : Nat
  stocks_updated : Nat
  errors : List String
deriving DecidableEq, Repr

/-- The zero-initialised `stats` dictionary. -/
def initStats : Stats :=
  { produits_created := 0, produits_updated := 0, fournisseurs_created := 0,
    stocks_created := 0, stocks_updated := 0, errors := [] }

/-- An empty store. -/
def emptyDB : DB := { fournisseurs := [], produits := [], stocks := [], nextId := 0 }

/-- Append the per-row error message, prefixed with the human row number
(`index + 2`), to the stats error list (lines 182-184). -/
def pushError (stats : Stats) (index : Nat) (e : String) : Stats :=
  { stats with errors := stats.errors ++ ["Ligne " ++ toString (index + 2) ++ ": " ++ e] }

/-- Step 1 of the row loop (lines 114-127): when the supplier cell is present
and non-blank after trimming, `get_or_create` a Fournisseur keyed by
(trimmed name, magasin) with placeholder address/contact on creation, counting
creations; otherwise no supplier is linked. Returns the resolved supplier. -/
def supplierStep (magasin : Nat) (db : DB) (stats : Stats) (row : Row) :
    DB × Stats × Option String :=
  match row.fournisseur with
  | none => (db, stats, none)
  | some s =>
    if pyStrip s = "" then (db, stats, none)
    else
      let nom := pyStrip s
      match db.fournisseurs.find? (fun f => f.nom == nom && f.magasin == magasin) with
      | some _ => (db, stats, some nom)
      | none =>
        ({ db with fournisseurs := db.fournisseurs ++
            [{ nom := nom, magasin := magasin,
               adresse := "Adresse à compléter", contact := "Contact à compléter" }] },
         { stats with fournisseurs_created := stats.fournisseurs_created + 1 },
         some nom)

/-- The candidate `produit_data` dictionary of lines 130-138. -/
structure ProduitData where
  nom : String
  reference : String
  categorie : String
  prix_unitaire : ℚ
  seuil_alerte : Int
  fournisseur : Option String
  magasin : Nat
deriving DecidableEq, Repr

/-- Python `row[col].strip()`: on a missing value (NaN, a float) this raises
AttributeError; on a string it trims whitespace. -/
def stripCell : Option String → Except String String
  | some s => .ok (pyStrip s)
  | none => .error "float object has no attribute strip"

/-- Line 134: `float(row[prix]) if pd.notna(row[prix]) else 0`; a present but
unparseable cell raises ValueError. -/
def parsePrix : Option String → Except String ℚ
  | none => .ok 0
  | some s =>
    match pyFloat? s with
    | some v => .ok v
    | none => .error ("could not convert string to float: " ++ s)

/-- Line 135: `int(row[seuil_alerte]) if pd.notna(row[seuil_alerte]) else 0`;
a present but unparseable cell raises ValueError. -/
def parseSeuil : Option String → Except String Int
  | none => .ok 0
  | some s =>
    match pyInt? s with
    | some v => .ok v
    | none => .error ("invalid literal for int with base 10: " ++ s)

/-- Build the `produit_data` dictionary (lines 130-138), evaluating the cell
conversions in source order; the first raising conversion aborts the row. -/
def buildProduitData (magasin : Nat) (four : Option String) (row : Row) :
    Except String ProduitData :=
  match stripCell row.nom with
  | .error e => .error e
  | .ok nomv =>
    match stripCell row.reference with
    | .error e => .error e
    | .ok refv =>
      match stripCell row.categorie with
      | .error e => .error e
      | .ok catv =>
        match parsePrix row.prix with
        | .error e => .error e
        | .ok prixv =>
          match parseSeuil row.seuil_alerte with
          | .error e => .error e
          | .ok seuilv =>
            .ok { nom := nomv, reference := refv, categorie := catv,
                  prix_unitaire := prixv, seuil_alerte := seuilv,
                  fournisseur := four, magasin := magasin }

/-- Django `existing_produit.save()` after the setattr loop of lines 148-151:
overwrite every field of the record with primary key `pid` except `reference`
(and the primary key itself). -/
def saveProduit (ps : List Produit) (pid : Nat) (pd : ProduitData) : List Produit :=
  ps.map (fun p =>
    if p.id == pid then
      { p with nom := pd.nom, categorie := pd.categorie,
               prix_unitaire := pd.prix_unitaire, seuil_alerte := pd.seuil_alerte,
               fournisseur := pd.fournisseur, magasin := pd.magasin }
    else p)

/-- A freshly created Produit row (line 156) with primary key `pid`. -/
def mkProduit (pid : Nat) (pd : ProduitData) : Produit :=
  { id := pid, nom := pd.nom, reference := pd.reference, categorie := pd.categorie,
    prix_unitaire := pd.prix_unitaire, seuil_alerte := pd.seuil_alerte,
    fournisseur := pd.fournisseur, magasin := pd.magasin }

/-- Step 2 of the row loop (lines 140-157): look up an existing product by
(reference, magasin); update it in place (reference untouched) or create a new
one, counting updated/created. Returns the primary key of the handled product. -/
def produitStep (magasin : Nat) (db : DB) (stats : Stats) (pd : ProduitData) :
    DB × Stats × Nat :=
  match db.produits.find? (fun p => p.reference == pd.reference && p.magasin == magasin) with
  | some p =>
    ({ db with produits := saveProduit db.produits p.id pd },
     { stats with produits_updated := stats.produits_updated + 1 }, p.id)
  | none =>
    ({ db with produits := db.produits ++ [mkProduit db.nextId pd], nextId := db.nextId + 1 },
     { stats with produits_created := stats.produits_created + 1 }, db.nextId)

/-- `existing_stock.quantite += k; existing_stock.save()`: add `k` to the
quantity of the first (produit, magasin) match, as `.filter(...).first()`
selected it. -/
def addToFirstStock (stocks : List Stock) (pid magasin : Nat) (k : Int) : List Stock :=
  match stocks with
  | [] => []
  | st :: rest =>
    if st.produit == pid && st.magasin == magasin then
      { st with quantite := st.quantite + k } :: rest
    else st :: addToFirstStock rest pid magasin k

/-- Step 3 of the row loop (lines 159-180): only when the stock cell is present
and `int(...)` parses it strictly positive, add to the existing (produit,
magasin) stock or create one; a present unparseable cell raises ValueError in
the guard itself; a missing or non-positive cell is silently skipped. -/
def stockStep (magasin pid : Nat) (db : DB) (stats : Stats) (row : Row) :
    Except String (DB × Stats) :=
  match row.stock with
  | none => .ok (db, stats)
  | some s =>
    match pyInt? s with
    | none => .error ("invalid literal for int with base 10: " ++ s)
    | some k =>
      if k > 0 then
        match db.stocks.find? (fun st => st.produit == pid && st.magasin == magasin) with
        | some _ =>
          .ok ({ db with stocks := addToFirstStock db.stocks pid magasin k },
               { stats with stocks_updated := stats.stocks_updated + 1 })
        | none =>
          .ok ({ db with stocks := db.stocks ++ [{ produit := pid, magasin := magasin, quantite := k }] },
               { stats with stocks_created := stats.stocks_created + 1 })
      else .ok (db, stats)

/-- The stock step together with its share of the surrounding try/except: a
raise keeps the state already committed and appends one prefixed message. -/
def stockPhase (magasin pid index : Nat) (db : DB) (stats : Stats) (row : Row) : DB × Stats :=
  match stockStep magasin pid db stats row with
  | .error e => (db, pushError stats index e)
  | .ok out => out

/-- One iteration of the `for index, row in df.iterrows()` loop (lines
112-185): the three steps run in order inside a try/except; a raise keeps every
side effect already committed in this row and appends one prefixed message. -/
def processRow (magasin index : Nat) (acc : DB × Stats) (row : Row) : DB × Stats :=
  let db := acc.1
  let stats := acc.2
  let s1 := supplierStep magasin db stats row
  match buildProduitData magasin s1.2.2 row with
  | .error e => (s1.1, pushError s1.2.1 index e)
  | .ok pd =>
    let s2 := produitStep magasin s1.1 s1.2.1 pd
    stockPhase magasin s2.2.2 index s2.1 s2.2.1 row

/-- The whole row loop, `i` the DataFrame index of the first row. -/
def processRowsFrom (magasin i : Nat) (acc : DB × Stats) : List Row → DB × Stats
  | [] => acc
  | r :: rs => processRowsFrom magasin (i + 1) (processRow magasin i acc r) rs

/-- The row loop started at index 0 on fresh stats. -/
def processRows (magasin : Nat) (db : DB) (rows : List Row) : DB × Stats :=
  processRowsFrom magasin 0 (db, initStats) rows

/-- The authenticated caller: `role` and `magasin` are `none` when the
attribute is missing or falsy (no bound store). -/
structure User where
  role : Option String
  magasin : Option Nat
deriving DecidableEq, Repr

/-- The parsed tabular file: its column names and its rows (cells of the seven
required columns; other columns are never read). -/
structure Frame where
  columns : List String
  rows : List Row
deriving DecidableEq, Repr

/-- An uploaded file: its declared name and the outcome of handing its bytes
to pandas (`.error` models a raised parse exception). -/
structure UploadedFile where
  name : String
  parsed : Except String Frame
deriving Repr

/-- Python `str.endswith`. -/
def pyEndsWith (s suffix : String) : Bool :=
  suffix.data.isSuffixOf s.data

/-- Python `sep.join(xs)`. -/
def pyJoin (sep : String) : List String → String
  | [] => ""
  | [x] => x
  | x :: xs => x ++ sep ++ pyJoin sep xs

/-- Line 92: the required column set. -/
def requiredColumns : List String :=
  ["nom", "reference", "categorie", "prix", "seuil_alerte", "fournisseur", "stock"]

/-- The HTTP outcome of `import_dataset`. -/
inductive ImportResult where
  | forbidden (error : String)
  | badRequest (error : String)
  | ok (message : String) (stats : Stats)
deriving DecidableEq, Repr

/-- The `import_dataset` view (lines 58-190): guard on role then store, then
file presence, extension dispatch, parse, required-column check, and the row
loop; returns the response together with the resulting store state. -/
def import_dataset (user : User) (db : DB) (upload : Option UploadedFile) :
    ImportResult × DB :=
  if user.role = some "manager" ∨ user.role = some "admin" then
    match user.magasin with
    | none => (.badRequest "Utilisateur non assigné à un magasin.", db)
    | some magasin =>
      match upload with
      | none => (.badRequest "Aucun fichier fourni.", db)
      | some file =>
        if pyEndsWith file.name ".csv" ∨ pyEndsWith file.name ".xlsx" ∨ pyEndsWith file.name ".xls" then
          match file.parsed with
          | .error e => (.badRequest ("Erreur lors de la lecture du fichier: " ++ e), db)
          | .ok df =>
            let missing := requiredColumns.filter (fun c => ¬ df.columns.contains c)
            if missing = [] then
              let out := processRows magasin db df.rows
              (.ok "Import terminé" out.2, out.1)
            else
              (.badRequest ("Colonnes manquantes: " ++ pyJoin ", " missing), db)
        else
          (.badRequest "Format de fichier non supporté. Utilisez CSV ou Excel.", db)
  else
    (.forbidden "Seuls les managers et admins peuvent importer des datasets.", db)

/-- Shorthand row constructor for concrete scenarios. -/
def mkRow (n r c p sa f st : Option String) : Row :=
  { nom := n, reference := r, categorie := c, prix := p, seuil_alerte := sa,
    fournisseur := f, stock := st }

/-- The prix cell converts without raising: it is missing (NaN) or a present
string accepted by Python `float`. -/
def cellFloatOk : Option String → Bool
  | none => true
  | some s => (pyFloat? s).isSome

/-- The cell converts without raising under Python `int`: missing or accepted. -/
def cellIntOk : Option String → Bool
  | none => true
  | some s => (pyInt? s).isSome

/-- The numeric value line 134 stores: 0 when the cell is missing, else the
parsed float (meaningful when the parse succeeds). -/
def prixVal : Option String → ℚ
  | none => 0
  | some s => (pyFloat? s).getD 0

/-- The integer value line 135 stores: 0 when missing, else the parsed int. -/
def seuilVal : Option String → Int
  | none => 0
  | some s => (pyInt? s).getD 0

/-- What a row contributes to the error list: nothing, or a single message
prefixed with the human row number. -/
def errorEntry (index : Nat) : Option String → List String
  | none => []
  | some e => ["Ligne " ++ toString (index + 2) ++ ": " ++ e]

/-- Pointwise order on import statistics: counters never shrink and the error
list only grows at the end. -/
def statsLe (a b : Stats) : Prop :=
  a.produits_created ≤ b.produits_created ∧
  a.produits_updated ≤ b.produits_updated ∧
  a.fournisseurs_created ≤ b.fournisseurs_created ∧
  a.stocks_created ≤ b.stocks_created ∧
  a.stocks_updated ≤ b.stocks_updated ∧
  a.errors <+: b.errors

theorem statsLe_refl (a : Stats) : statsLe a a :=
  ⟨le_refl _, le_refl _, le_refl _, le_refl _, le_refl _, List.prefix_refl _⟩

theorem statsLe_trans {a b c : Stats} (h1 : statsLe a b) (h2 : statsLe b c) : statsLe a c :=
  ⟨h1.1.trans h2.1, h1.2.1.trans h2.2.1, h1.2.2.1.trans h2.2.2.1,
   h1.2.2.2.1.trans h2.2.2.2.1, h1.2.2.2.2.1.trans h2.2.2.2.2.1,
   h1.2.2.2.2.2.trans h2.2.2.2.2.2⟩

theorem supplierStep_frame (m : Nat) (db : DB) (st : Stats) (row : Row) :
    (supplierStep m db st row).1.produits = db.produits ∧
    (supplierStep m db st row).1.stocks = db.stocks ∧
    (supplierStep m db st row).1.nextId = db.nextId ∧
    (supplierStep m db st row).2.1.produits_created = st.produits_created ∧
    (supplierStep m db st row).2.1.produits_updated = st.produits_updated ∧
    (supplierStep m db st row).2.1.stocks_created = st.stocks_created ∧
    (supplierStep m db st row).2.1.stocks_updated = st.stocks_updated ∧
    (supplierStep m db st row).2.1.errors = st.errors := by
  unfold supplierStep
  split
  · simp
  · split
    · simp
    · dsimp only
      split <;> simp

theorem supplierStep_statsLe (m : Nat) (db : DB) (st : Stats) (row : Row) :
    statsLe st (supplierStep m db st row).2.1 := by
  unfold supplierStep statsLe
  split
  · simp
  · split
    · simp
    · dsimp only
      split <;> simp

theorem produitStep_frame (m : Nat) (db : DB) (st : Stats) (pd : ProduitData) :
    (produitStep m db st pd).1.fournisseurs = db.fournisseurs ∧
    (produitStep m db st pd).1.stocks = db.stocks ∧
    (produitStep m db st pd).2.1.fournisseurs_created = st.fournisseurs_created ∧
    (produitStep m db st pd).2.1.stocks_created = st.stocks_created ∧
    (produitStep m db st pd).2.1.stocks_updated = st.stocks_updated ∧
    (produitStep m db st pd).2.1.errors = st.errors := by
  unfold produitStep
  split <;> simp

theorem produitStep_statsLe (m : Nat) (db : DB) (st : Stats) (pd : ProduitData) :
    statsLe st (produitStep m db st pd).2.1 := by
  unfold produitStep statsLe
  split <;> simp [Nat.le_succ]

theorem stockStep_ok_frame (m pid : Nat) (db : DB) (st : Stats) (row : Row) (out : DB × Stats)
    (h : stockStep m pid db st row = .ok out) :
    out.1.fournisseurs = db.fournisseurs ∧
    out.1.produits = db.produits ∧
    out.1.nextId = db.nextId ∧
    out.2.produits_created = st.produits_created ∧
    out.2.produits_updated = st.produits_updated ∧
    out.2.fournisseurs_created = st.fournisseurs_created ∧
    out.2.errors = st.errors := by
  unfold stockStep at h
  repeat' split at h
  all_goals first
    | (injection h with h1; subst h1; exact ⟨rfl, rfl, rfl, rfl, rfl, rfl, rfl⟩)
    | simp at h

theorem stockPhase_frame (m pid i : Nat) (db : DB) (st : Stats) (row : Row) :
    (stockPhase m pid i db st row).1.fournisseurs = db.fournisseurs ∧
    (stockPhase m pid i db st row).1.produits = db.produits ∧
    (stockPhase m pid i db st row).1.nextId = db.nextId ∧
    (stockPhase m pid i db st row).2.produits_created = st.produits_created ∧
    (stockPhase m pid i db st row).2.produits_updated = st.produits_updated ∧
    (stockPhase m pid i db st row).2.fournisseurs_created = st.fournisseurs_created := by
  unfold stockPhase
  cases h : stockStep m pid db st row with
  | error e => simp [pushError]
  | ok out =>
    have hf := stockStep_ok_frame m pid db st row out h
    simp [hf.1, hf.2.1, hf.2.2.1, hf.2.2.2.1, hf.2.2.2.2.1, hf.2.2.2.2.2.1]

theorem stockStep_ok_statsLe (m pid : Nat) (db : DB) (st : Stats) (row : Row) (out : DB × Stats)
    (h : stockStep m pid db st row = .ok out) : statsLe st out.2 := by
  unfold stockStep at h
  repeat' split at h
  all_goals first
    | (injection h with h1; subst h1;
       simp [statsLe, Nat.le_succ, List.prefix_refl])
    | simp at h

theorem stockPhase_statsLe (m pid i : Nat) (db : DB) (st : Stats) (row : Row) :
    statsLe st (stockPhase m pid i db st row).2 := by
  unfold stockPhase
  cases h : stockStep m pid db st row with
  | error e => simp [pushError, statsLe, List.prefix_append]
  | ok out => exact stockStep_ok_statsLe m pid db st row out h

theorem pushError_statsLe (st : Stats) (i : Nat) (e : String) :
    statsLe st (pushError st i e) := by
  simp [pushError, statsLe, List.prefix_append]

theorem parsePrix_ok (c : Option String) (h : cellFloatOk c = true) :
    parsePrix c = .ok (prixVal c) := by
  cases c with
  | none => rfl
  | some s =>
    simp only [cellFloatOk] at h
    obtain ⟨v, hv⟩ := Option.isSome_iff_exists.mp h
    simp [parsePrix, prixVal, hv]

theorem parseSeuil_ok (c : Option String) (h : cellIntOk c = true) :
    parseSeuil c = .ok (seuilVal c) := by
  cases c with
  | none => rfl
  | some s =>
    simp only [cellIntOk] at h
    obtain ⟨v, hv⟩ := Option.isSome_iff_exists.mp h
    simp [parseSeuil, seuilVal, hv]

theorem buildProduitData_ok (m : Nat) (four : Option String) (row : Row)
    (n r c : String) (hn : row.nom = some n) (hr : row.reference = some r)
    (hc : row.categorie = some c) (hp : cellFloatOk row.prix = true)
    (hs : cellIntOk row.seuil_alerte = true) :
    buildProduitData m four row =
      .ok { nom := pyStrip n, reference := pyStrip r, categorie := pyStrip c,
            prix_unitaire := prixVal row.prix, seuil_alerte := seuilVal row.seuil_alerte,
            fournisseur := four, magasin := m } := by
  unfold buildProduitData
  simp only [hn, hr, hc, stripCell, parsePrix_ok row.prix hp, parseSeuil_ok row.seuil_alerte hs]

theorem saveProduit_map_reference (ps : List Produit) (pid : Nat) (pd : ProduitData) :
    (saveProduit ps pid pd).map Produit.reference = ps.map Produit.reference := by
  induction ps with
  | nil => rfl
  | cons p ps ih =>
    unfold saveProduit at ih ⊢
    simp only [List.map_cons, ih]
    by_cases h : (p.id == pid) = true <;> simp [h]

theorem mem_saveProduit (ps : List Produit) (pid : Nat) (pd : ProduitData) (p : Produit)
    (h : p ∈ saveProduit ps pid pd) : p ∈ ps ∨ p.fournisseur = pd.fournisseur := by
  unfold saveProduit at h
  obtain ⟨q, hq, hqe⟩ := List.mem_map.mp h
  by_cases hid : q.id == pid
  · right
    rw [← hqe]
    simp [hid]
  · left
    rw [if_neg hid] at hqe
    rw [← hqe]
    exact hq

theorem addToFirstStock_length (stocks : List Stock) (pid m : Nat) (k : Int) :
    (addToFirstStock stocks pid m k).length = stocks.length := by
  induction stocks with
  | nil => rfl
  | cons s ss ih =>
    unfold addToFirstStock
    by_cases h : s.produit == pid && s.magasin == m <;> simp [h, ih]

theorem addToFirstStock_find (stocks : List Stock) (pid m : Nat) (k : Int) (st0 : Stock)
    (h : stocks.find? (fun t => t.produit == pid && t.magasin == m) = some st0) :
    (addToFirstStock stocks pid m k).find? (fun t => t.produit == pid && t.magasin == m) =
      some { st0 with quantite := st0.quantite + k } := by
  induction stocks with
  | nil => simp at h
  | cons s ss ih =>
    unfold addToFirstStock
    by_cases hm : (s.produit == pid && s.magasin == m) = true
    · simp only [List.find?_cons, hm] at h
      injection h with h1
      subst h1
      rw [if_pos hm]
      simp [List.find?_cons, hm]
    · have hm2 : (s.produit == pid && s.magasin == m) = false := by
        simpa using hm
      simp only [List.find?_cons, hm2] at h
      rw [if_neg hm]
      simp only [List.find?_cons, hm2]
      exact ih h

theorem stockPhase_none (m pid i : Nat) (db : DB) (st : Stats) (row : Row)
    (hs : row.stock = none) : stockPhase m pid i db st row = (db, st) := by
  unfold stockPhase stockStep
  rw [hs]

theorem stockPhase_nonpos (m pid i : Nat) (db : DB) (st : Stats) (row : Row)
    (s : String) (k : Int) (hs : row.stock = some s) (hk : pyInt? s = some k)
    (hkn : ¬ 0 < k) : stockPhase m pid i db st row = (db, st) := by
  unfold stockPhase stockStep
  simp only [hs, hk]
  rw [if_neg hkn]

theorem stockPhase_badParse (m pid i : Nat) (db : DB) (st : Stats) (row : Row)
    (s : String) (hs : row.stock = some s) (hk : pyInt? s = none) :
    stockPhase m pid i db st row =
      (db, pushError st i ("invalid literal for int with base 10: " ++ s)) := by
  unfold stockPhase stockStep
  simp only [hs, hk]

theorem stockPhase_update (m pid i : Nat) (db : DB) (st : Stats) (row : Row)
    (s : String) (k : Int) (hs : row.stock = some s) (hk : pyInt? s = some k)
    (hkpos : 0 < k) (st0 : Stock)
    (hf : db.stocks.find? (fun t => t.produit == pid && t.magasin == m) = some st0) :
    stockPhase m pid i db st row =
      ({ db with stocks := addToFirstStock db.stocks pid m k },
       { st with stocks_updated := st.stocks_updated + 1 }) := by
  unfold stockPhase stockStep
  simp only [hs, hk, hf]
  rw [if_pos hkpos]

theorem processRow_ok (m i : Nat) (db : DB) (st : Stats) (row : Row) (pd : ProduitData)
    (hb : buildProduitData m (supplierStep m db st row).2.2 row = .ok pd) :
    processRow m i (db, st) row =
      stockPhase m (produitStep m (supplierStep m db st row).1 (supplierStep m db st row).2.1 pd).2.2 i
        (produitStep m (supplierStep m db st row).1 (supplierStep m db st row).2.1 pd).1
        (produitStep m (supplierStep m db st row).1 (supplierStep m db st row).2.1 pd).2.1 row := by
  unfold processRow
  dsimp only
  rw [hb]

theorem processRow_err (m i : Nat) (db : DB) (st : Stats) (row : Row) (e : String)
    (hb : buildProduitData m (supplierStep m db st row).2.2 row = .error e) :
    processRow m i (db, st) row =
      ((supplierStep m db st row).1, pushError (supplierStep m db st row).2.1 i e) := by
  unfold processRow
  dsimp only
  rw [hb]

theorem produitStep_found (m : Nat) (db : DB) (st : Stats) (pd : ProduitData) (p : Produit)
    (h : db.produits.find? (fun q => q.reference == pd.reference && q.magasin == m) = some p) :
    produitStep m db st pd =
      ({ db with produits := saveProduit db.produits p.id pd },
       { st with produits_updated := st.produits_updated + 1 }, p.id) := by
  unfold produitStep
  rw [h]

theorem produitStep_new (m : Nat) (db : DB) (st : Stats) (pd : ProduitData)
    (h : db.produits.find? (fun q => q.reference == pd.reference && q.magasin == m) = none) :
    produitStep m db st pd =
      ({ db with produits := db.produits ++ [mkProduit db.nextId pd], nextId := db.nextId + 1 },
       { st with produits_created := st.produits_created + 1 }, db.nextId) := by
  unfold produitStep
  rw [h]

theorem buildProduitData_fournisseur (m : Nat) (four : Option String) (row : Row)
    (pd : ProduitData) (h : buildProduitData m four row = .ok pd) :
    pd.fournisseur = four := by
  unfold buildProduitData at h
  repeat' split at h
  all_goals first
    | (injection h with h1; rw [← h1])
    | simp at h

theorem stockStep_no_raise (m pid : Nat) (db : DB) (st : Stats) (row : Row)
    (h : cellIntOk row.stock = true) :
    ∃ out, stockStep m pid db st row = .ok out := by
  unfold stockStep
  cases hs : row.stock with
  | none => exact ⟨_, rfl⟩
  | some s =>
    rw [hs] at h
    simp only [cellIntOk] at h
    obtain ⟨k, hk⟩ := Option.isSome_iff_exists.mp h
    dsimp only
    rw [hk]
    dsimp only
    by_cases hp : 0 < k
    · rw [if_pos hp]
      cases hf : db.stocks.find? (fun t => t.produit == pid && t.magasin == m) <;>
        exact ⟨_, rfl⟩
    · rw [if_neg hp]
      exact ⟨_, rfl⟩

theorem stockPhase_errors_ok (m pid i : Nat) (db : DB) (st : Stats) (row : Row)
    (h : cellIntOk row.stock = true) :
    (stockPhase m pid i db st row).2.errors = st.errors := by
  obtain ⟨out, ho⟩ := stockStep_no_raise m pid db st row h
  unfold stockPhase
  rw [ho]
  exact (stockStep_ok_frame m pid db st row out ho).2.2.2.2.2.2

theorem supplierStep_blank (m : Nat) (db : DB) (st : Stats) (row : Row)
    (h : row.fournisseur = none ∨ ∃ s, row.fournisseur = some s ∧ pyStrip s = "") :
    supplierStep m db st row = (db, st, none) := by
  unfold supplierStep
  rcases h with h | ⟨s, hs, hb⟩
  · rw [h]
  · rw [hs]
    dsimp only
    rw [if_pos hb]

theorem processRow_errors (m i : Nat) (db : DB) (st : Stats) (row : Row) :
    ∃ o : Option String,
      (processRow m i (db, st) row).2.errors = st.errors ++ errorEntry i o := by
  have hsf := (supplierStep_frame m db st row).2.2.2.2.2.2.2
  cases hb : buildProduitData m (supplierStep m db st row).2.2 row with
  | error e =>
    refine ⟨some e, ?_⟩
    rw [processRow_err m i db st row e hb]
    simp [pushError, errorEntry, hsf]
  | ok pd =>
    rw [processRow_ok m i db st row pd hb]
    have hpf := (produitStep_frame m (supplierStep m db st row).1
      (supplierStep m db st row).2.1 pd).2.2.2.2.2
    unfold stockPhase
    cases hst : stockStep m
        (produitStep m (supplierStep m db st row).1 (supplierStep m db st row).2.1 pd).2.2
        (produitStep m (supplierStep m db st row).1 (supplierStep m db st row).2.1 pd).1
        (produitStep m (supplierStep m db st row).1 (supplierStep m db st row).2.1 pd).2.1
        row with
    | error e =>
      refine ⟨some e, ?_⟩
      simp [pushError, errorEntry, hpf, hsf]
    | ok out =>
      refine ⟨none, ?_⟩
      have ho := (stockStep_ok_frame _ _ _ _ _ _ hst).2.2.2.2.2.2
      simp [errorEntry, ho, hpf, hsf]

theorem processRow_statsLe (m i : Nat) (acc : DB × Stats) (row : Row) :
    statsLe acc.2 (processRow m i acc row).2 := by
  obtain ⟨db, st⟩ := acc
  have h1 := supplierStep_statsLe m db st row
  cases hb : buildProduitData m (supplierStep m db st row).2.2 row with
  | error e =>
    rw [processRow_err m i db st row e hb]
    exact statsLe_trans h1 (pushError_statsLe _ i e)
  | ok pd =>
    rw [processRow_ok m i db st row pd hb]
    have h2 := produitStep_statsLe m (supplierStep m db st row).1
      (supplierStep m db st row).2.1 pd
    have h3 := stockPhase_statsLe m
      (produitStep m (supplierStep m db st row).1 (supplierStep m db st row).2.1 pd).2.2 i
      (produitStep m (supplierStep m db st row).1 (supplierStep m db st row).2.1 pd).1
      (produitStep m (supplierStep m db st row).1 (supplierStep m db st row).2.1 pd).2.1 row
    exact statsLe_trans h1 (statsLe_trans h2 h3)

theorem processRowsFrom_statsLe (m : Nat) (rows : List Row) :
    ∀ (i : Nat) (acc : DB × Stats), statsLe acc.2 (processRowsFrom m i acc rows).2 := by
  induction rows with
  | nil =>
    intro i acc
    exact statsLe_refl _
  | cons r rs ih =>
    intro i acc
    unfold processRowsFrom
    exact statsLe_trans (processRow_statsLe m i acc r) (ih (i + 1) (processRow m i acc r))

theorem import_dataset_ok (user : User) (db : DB) (name : String) (df : Frame) (m : Nat)
    (hrole : user.role = some "manager" ∨ user.role = some "admin")
    (hm : user.magasin = some m)
    (hext : pyEndsWith name ".csv" ∨ pyEndsWith name ".xlsx" ∨ pyEndsWith name ".xls")
    (hcols : requiredColumns.filter (fun c => ¬ df.columns.contains c) = []) :
    (import_dataset user db (some { name := name, parsed := .ok df })) =
      (.ok "Import terminé" (processRows m db df.rows).2, (processRows m db df.rows).1) := by
  unfold import_dataset
  rw [if_pos hrole, hm]
  dsimp only
  rw [if_pos hext, if_pos hcols]

/-- C3: importing, into an empty store, a file with all required columns and
exactly the rows (A, REF1, cat, "10.5", "5", "Acme", "3") then
(A2, REF1, cat, "12", "5", "Acme", "2") yields the summary
fournisseurs_created=1, produits_created=1, produits_updated=1,
stocks_created=1, stocks_updated=1 with no errors, one product REF1 whose
final unit price is 12, and one stock record for it with final quantity 5. -/
theorem C3_two_row_scenario :
    (import_dataset { role := some "manager", magasin := some 7 } emptyDB
        (some
          { name := "d.csv",
            parsed := .ok
              { columns := requiredColumns,
                rows :=
                  [mkRow (some "A") (some "REF1") (some "cat") (some "10.5") (some "5")
                     (some "Acme") (some "3"),
                   mkRow (some "A2") (some "REF1") (some "cat") (some "12") (some "5")
                     (some "Acme") (some "2")] } })) =
      (.ok "Import terminé"
        { produits_created := 1, produits_updated := 1, fournisseurs_created := 1,
          stocks_created := 1, stocks_updated := 1, errors := [] },
       { fournisseurs :=
           [{ nom := "Acme", magasin := 7,
              adresse := "Adresse à compléter", contact := "Contact à compléter" }],
         produits :=
           [{ id := 0, nom := "A2", reference := "REF1", categorie := "cat",
              prix_unitaire := 12, seuil_alerte := 5, fournisseur := some "Acme", magasin := 7 }],
         stocks := [{ produit := 0, magasin := 7, quantite := 5 }],
         nextId := 1 }) := by
  decide

/-- C9: a caller whose role is not manager or admin gets a forbidden outcome; a
caller with an accepted role but no bound store gets a bad-request outcome; in
both cases the store state is returned untouched, and the outcome is the same
whatever file is attached — the file is never read. -/
theorem C9_access_guard (user : User) (db : DB) (upload upload2 : Option UploadedFile) :
    (¬ (user.role = some "manager" ∨ user.role = some "admin") →
      (import_dataset user db upload) =
        (.forbidden "Seuls les managers et admins peuvent importer des datasets.", db) ∧
      (import_dataset user db upload) = import_dataset user db upload2) ∧
    ((user.role = some "manager" ∨ user.role = some "admin") → user.magasin = none →
      (import_dataset user db upload) =
        (.badRequest "Utilisateur non assigné à un magasin.", db) ∧
      (import_dataset user db upload) = import_dataset user db upload2) := by
  constructor
  · intro h
    constructor
    · unfold import_dataset
      rw [if_neg h]
    · unfold import_dataset
      rw [if_neg h, if_neg h]
  · intro h hm
    constructor
    · unfold import_dataset
      rw [if_pos h, hm]
    · unfold import_dataset
      rw [if_pos h, if_pos h, hm]

/-- C9 witness: the guard at work on two concrete callers. -/
theorem C9_access_guard_witness :
    (import_dataset { role := some "employe", magasin := some 1 } emptyDB none) =
      (.forbidden "Seuls les managers et admins peuvent importer des datasets.", emptyDB) ∧
    (import_dataset { role := some "manager", magasin := none } emptyDB none) =
      (.badRequest "Utilisateur non assigné à un magasin.", emptyDB) :=
  ⟨((C9_access_guard { role := some "employe", magasin := some 1 } emptyDB none none).1
      (by decide)).1,
   (((C9_access_guard { role := some "manager", magasin := none } emptyDB none none).2
      (by decide)) rfl).1⟩

/-- C6: when any required column is missing from the parsed file, the import
aborts with a bad-request outcome whose message names exactly the missing
columns, the store state is returned untouched (no row is processed), and no
stats are produced. -/
theorem C6_missing_columns (user : User) (db : DB) (name : String) (df : Frame) (m : Nat)
    (hrole : user.role = some "manager" ∨ user.role = some "admin")
    (hm : user.magasin = some m)
    (hext : pyEndsWith name ".csv" ∨ pyEndsWith name ".xlsx" ∨ pyEndsWith name ".xls")
    (hmiss : requiredColumns.filter (fun c => ¬ df.columns.contains c) ≠ []) :
    (import_dataset user db (some { name := name, parsed := .ok df })) =
      (.badRequest ("Colonnes manquantes: " ++
        pyJoin ", " (requiredColumns.filter (fun c => ¬ df.columns.contains c))), db) := by
  unfold import_dataset
  rw [if_pos hrole, hm]
  dsimp only
  rw [if_pos hext, if_neg hmiss]

/-- C6 witness: a file missing five of the seven required columns aborts with
exactly those five names and an untouched store. -/
theorem C6_missing_columns_witness :
    (import_dataset { role := some "admin", magasin := some 3 } emptyDB
        (some
          { name := "d.csv",
            parsed := .ok
              { columns := ["nom", "reference"],
                rows := [mkRow (some "A") (some "R") (some "c") none none none none] } })) =
      (.badRequest
        "Colonnes manquantes: categorie, prix, seuil_alerte, fournisseur, stock", emptyDB) := by
  have h := C6_missing_columns { role := some "admin", magasin := some 3 } emptyDB "d.csv"
      { columns := ["nom", "reference"],
        rows := [mkRow (some "A") (some "R") (some "c") none none none none] } 3
      (by decide) rfl (by decide) (by decide)
  rw [h]
  decide

/-- C1 counterexample: a row whose price cell is present but not numeric
("abc") does not yield a product with unit price 0 and an empty error list —
instead the reconciler records one row error and creates no product. -/
theorem C1_counterexample :
    (processRow 0 0 (emptyDB, initStats)
        (mkRow (some "A") (some "R") (some "c") (some "abc") (some "1") none none)).1.produits
      = [] ∧
    (processRow 0 0 (emptyDB, initStats)
        (mkRow (some "A") (some "R") (some "c") (some "abc") (some "1") none none)).2.errors
      = ["Ligne 2: could not convert string to float: abc"] := by
  decide

/-- C2 counterexample: a row whose stock cell is present but not an integer
("abc") is not silently skipped — no stock record is created, but one row
error is recorded. -/
theorem C2_counterexample :
    (processRow 0 0 (emptyDB, initStats)
        (mkRow (some "A") (some "R") (some "c") none none none (some "abc"))).1.stocks
      = [] ∧
    (processRow 0 0 (emptyDB, initStats)
        (mkRow (some "A") (some "R") (some "c") none none none (some "abc"))).2.errors
      = ["Ligne 2: invalid literal for int with base 10: abc"] := by
  decide

/-- C10: a missing nom, reference, or categorie cell makes the row reconciler
raise while building the candidate product: no product is created or updated
for that row (stocks also untouched) and the row is recorded as exactly one
error message carrying the human row number — the zero default of the numeric
cells does not extend to these three text fields. -/
theorem C10_missing_text_field (m i : Nat) (db : DB) (st : Stats) (row : Row)
    (h : row.nom = none ∨ row.reference = none ∨ row.categorie = none) :
    (∃ e, buildProduitData m (supplierStep m db st row).2.2 row = .error e) ∧
    (processRow m i (db, st) row).1.produits = db.produits ∧
    (processRow m i (db, st) row).1.stocks = db.stocks ∧
    (processRow m i (db, st) row).2.produits_created = st.produits_created ∧
    (processRow m i (db, st) row).2.produits_updated = st.produits_updated ∧
    ∃ e, (processRow m i (db, st) row).2.errors =
      st.errors ++ ["Ligne " ++ toString (i + 2) ++ ": " ++ e] := by
  have hsf := supplierStep_frame m db st row
  have herr : ∃ e, buildProduitData m (supplierStep m db st row).2.2 row = .error e := by
    unfold buildProduitData
    rcases h with h | h | h
    · rw [h]
      exact ⟨"float object has no attribute strip", rfl⟩
    · rw [h]
      rcases hn : row.nom with _ | n
      · exact ⟨"float object has no attribute strip", rfl⟩
      · exact ⟨"float object has no attribute strip", rfl⟩
    · rw [h]
      rcases hn : row.nom with _ | n
      · exact ⟨"float object has no attribute strip", rfl⟩
      · rcases hr : row.reference with _ | r
        · exact ⟨"float object has no attribute strip", rfl⟩
        · exact ⟨"float object has no attribute strip", rfl⟩
  obtain ⟨e, he⟩ := herr
  rw [processRow_err m i db st row e he]
  refine ⟨⟨e, he⟩, hsf.1, hsf.2.1, ?_, ?_, ⟨e, ?_⟩⟩
  · simpa [pushError] using hsf.2.2.2.1
  · simpa [pushError] using hsf.2.2.2.2.1
  · simp [pushError, hsf.2.2.2.2.2.2.2]

/-- C10 witness: a row with a missing reference cell leaves the empty store
without products and is reported as a row 2 error. -/
theorem C10_missing_text_field_witness :
    ((mkRow (some "A") none (some "c") none none none none).reference = none ∨ False) ∧
    (processRow 0 0 (emptyDB, initStats)
      (mkRow (some "A") none (some "c") none none none none)).1.produits = [] := by
  refine ⟨Or.inl rfl, ?_⟩
  have h := C10_missing_text_field 0 0 emptyDB initStats
      (mkRow (some "A") none (some "c") none none none none) (Or.inr (Or.inl rfl))
  rw [h.2.1]
  rfl

/-- C1 (amended): the zero default of the price and alert-threshold parses
applies only to missing cells — blank cells and pandas NA markers such as
"N/A" load as missing — in which case the candidate product carries value 0
and the row records no error; a price cell that is present but rejected by
float raises instead, so no product is created or updated and the row is
recorded as one error message carrying the human row number. -/
theorem C1_price_default_only_when_missing (m i : Nat) (db : DB) (st : Stats) (row : Row)
    (n r c : String) (hn : row.nom = some n) (hr : row.reference = some r)
    (hc : row.categorie = some c) (hsa : cellIntOk row.seuil_alerte = true)
    (hstk : cellIntOk row.stock = true) :
    (row.prix = none →
      (∃ pd, buildProduitData m (supplierStep m db st row).2.2 row = .ok pd ∧
        pd.prix_unitaire = 0) ∧
      (processRow m i (db, st) row).2.errors = st.errors) ∧
    (∀ s, row.prix = some s → pyFloat? s = none →
      (processRow m i (db, st) row).1.produits = db.produits ∧
      (processRow m i (db, st) row).2.produits_created = st.produits_created ∧
      (processRow m i (db, st) row).2.produits_updated = st.produits_updated ∧
      (processRow m i (db, st) row).2.errors = st.errors ++
        ["Ligne " ++ toString (i + 2) ++ ": " ++ ("could not convert string to float: " ++ s)]) ∧
    mkCell "N/A" = none := by
  have hsf := supplierStep_frame m db st row
  refine ⟨?_, ?_, by decide⟩
  · intro hpx
    have hpok : cellFloatOk row.prix = true := by rw [hpx]; rfl
    have hb := buildProduitData_ok m (supplierStep m db st row).2.2 row n r c hn hr hc hpok hsa
    constructor
    · exact ⟨_, hb, by simp [prixVal, hpx]⟩
    · rw [processRow_ok m i db st row _ hb]
      rw [stockPhase_errors_ok _ _ _ _ _ _ hstk]
      rw [(produitStep_frame _ _ _ _).2.2.2.2.2]
      exact hsf.2.2.2.2.2.2.2
  · intro s hpx hpf
    have hb : buildProduitData m (supplierStep m db st row).2.2 row =
        .error ("could not convert string to float: " ++ s) := by
      unfold buildProduitData
      rw [hn, hr, hc, hpx]
      simp [stripCell, parsePrix, hpf]
    rw [processRow_err m i db st row _ hb]
    refine ⟨hsf.1, ?_, ?_, ?_⟩
    · simpa [pushError] using hsf.2.2.2.1
    · simpa [pushError] using hsf.2.2.2.2.1
    · simp [pushError, hsf.2.2.2.2.2.2.2]

/-- C1 witness: a row with a missing price cell yields a candidate product
with unit price 0 and leaves the error list empty. -/
theorem C1_price_default_witness :
    (mkRow (some "A") (some "R") (some "c") none (some "1") none none).prix = none ∧
    (processRow 0 0 (emptyDB, initStats)
      (mkRow (some "A") (some "R") (some "c") none (some "1") none none)).2.errors = [] := by
  refine ⟨rfl, ?_⟩
  have h := ((C1_price_default_only_when_missing 0 0 emptyDB initStats
      (mkRow (some "A") (some "R") (some "c") none (some "1") none none)
      "A" "R" "c" rfl rfl rfl (by decide) rfl).1 rfl).2
  rw [h]
  rfl

/-- C2 (amended): a stock cell that is missing, or parses to a non-positive
integer, is silently skipped — no stock record is created or modified and no
row error is recorded; a stock cell that is present but rejected by int still
creates or modifies no stock record, but does record one row error carrying
the human row number. -/
theorem C2_stock_skip_or_error (m i : Nat) (db : DB) (st : Stats) (row : Row)
    (n r c : String) (hn : row.nom = some n) (hr : row.reference = some r)
    (hc : row.categorie = some c) (hp : cellFloatOk row.prix = true)
    (hsa : cellIntOk row.seuil_alerte = true) :
    (row.stock = none →
      (processRow m i (db, st) row).1.stocks = db.stocks ∧
      (processRow m i (db, st) row).2.stocks_created = st.stocks_created ∧
      (processRow m i (db, st) row).2.stocks_updated = st.stocks_updated ∧
      (processRow m i (db, st) row).2.errors = st.errors) ∧
    (∀ s k, row.stock = some s → pyInt? s = some k → ¬ 0 < k →
      (processRow m i (db, st) row).1.stocks = db.stocks ∧
      (processRow m i (db, st) row).2.stocks_created = st.stocks_created ∧
      (processRow m i (db, st) row).2.stocks_updated = st.stocks_updated ∧
      (processRow m i (db, st) row).2.errors = st.errors) ∧
    (∀ s, row.stock = some s → pyInt? s = none →
      (processRow m i (db, st) row).1.stocks = db.stocks ∧
      (processRow m i (db, st) row).2.stocks_created = st.stocks_created ∧
      (processRow m i (db, st) row).2.stocks_updated = st.stocks_updated ∧
      (processRow m i (db, st) row).2.errors = st.errors ++
        ["Ligne " ++ toString (i + 2) ++ ": " ++ ("invalid literal for int with base 10: " ++ s)]) := by
  have hsf := supplierStep_frame m db st row
  have hb := buildProduitData_ok m (supplierStep m db st row).2.2 row n r c hn hr hc hp hsa
  have hpf := produitStep_frame m (supplierStep m db st row).1 (supplierStep m db st row).2.1
    { nom := pyStrip n, reference := pyStrip r, categorie := pyStrip c,
      prix_unitaire := prixVal row.prix, seuil_alerte := seuilVal row.seuil_alerte,
      fournisseur := (supplierStep m db st row).2.2, magasin := m }
  rw [processRow_ok m i db st row _ hb]
  refine ⟨?_, ?_, ?_⟩
  · intro hstk
    rw [stockPhase_none _ _ _ _ _ _ hstk]
    exact ⟨hpf.2.1.trans hsf.2.1,
      hpf.2.2.2.1.trans hsf.2.2.2.2.2.1,
      hpf.2.2.2.2.1.trans hsf.2.2.2.2.2.2.1,
      hpf.2.2.2.2.2.trans hsf.2.2.2.2.2.2.2⟩
  · intro s k hstk hk hkn
    rw [stockPhase_nonpos _ _ _ _ _ _ s k hstk hk hkn]
    exact ⟨hpf.2.1.trans hsf.2.1,
      hpf.2.2.2.1.trans hsf.2.2.2.2.2.1,
      hpf.2.2.2.2.1.trans hsf.2.2.2.2.2.2.1,
      hpf.2.2.2.2.2.trans hsf.2.2.2.2.2.2.2⟩
  · intro s hstk hk
    rw [stockPhase_badParse _ _ _ _ _ _ s hstk hk]
    refine ⟨hpf.2.1.trans hsf.2.1, ?_, ?_, ?_⟩
    · simpa [pushError] using hpf.2.2.2.1.trans hsf.2.2.2.2.2.1
    · simpa [pushError] using hpf.2.2.2.2.1.trans hsf.2.2.2.2.2.2.1
    · simp [pushError, hpf.2.2.2.2.2.trans hsf.2.2.2.2.2.2.2]

/-- C2 witness: a stock cell parsing to 0 is silently skipped on an empty
store: no stock record and no error. -/
theorem C2_stock_skip_witness :
    pyInt? "0" = some 0 ∧
    (processRow 0 0 (emptyDB, initStats)
      (mkRow (some "A") (some "R") (some "c") none none none (some "0"))).1.stocks = [] ∧
    (processRow 0 0 (emptyDB, initStats)
      (mkRow (some "A") (some "R") (some "c") none none none (some "0"))).2.errors = [] := by
  have h := ((C2_stock_skip_or_error 0 0 emptyDB initStats
      (mkRow (some "A") (some "R") (some "c") none none none (some "0"))
      "A" "R" "c" rfl rfl rfl rfl rfl).2.1 "0" 0 rfl (by decide) (by decide))
  refine ⟨by decide, ?_, ?_⟩
  · rw [h.1]
    rfl
  · rw [h.2.2.2]
    rfl

theorem processRow_update_case (m i : Nat) (db : DB) (st : Stats) (row : Row)
    (pd : ProduitData)
    (hb : buildProduitData m (supplierStep m db st row).2.2 row = .ok pd)
    (p : Produit)
    (hfind : db.produits.find? (fun q => q.reference == pd.reference && q.magasin == m) = some p) :
    (processRow m i (db, st) row).1.produits.map Produit.reference =
      db.produits.map Produit.reference ∧
    (processRow m i (db, st) row).2.produits_updated = st.produits_updated + 1 ∧
    (processRow m i (db, st) row).2.produits_created = st.produits_created := by
  have hsf := supplierStep_frame m db st row
  rw [processRow_ok m i db st row pd hb]
  have hfind2 : (supplierStep m db st row).1.produits.find?
      (fun q => q.reference == pd.reference && q.magasin == m) = some p := by
    rw [hsf.1]
    exact hfind
  rw [produitStep_found m (supplierStep m db st row).1 (supplierStep m db st row).2.1 pd p hfind2]
  refine ⟨?_, ?_, ?_⟩
  · rw [(stockPhase_frame m p.id i _ _ row).2.1]
    dsimp only
    rw [saveProduit_map_reference, hsf.1]
  · rw [(stockPhase_frame m p.id i _ _ row).2.2.2.2.1]
    dsimp only
    rw [hsf.2.2.2.2.1]
  · rw [(stockPhase_frame m p.id i _ _ row).2.2.2.1]
    dsimp only
    rw [hsf.2.2.2.1]

theorem processRow_create_case (m i : Nat) (db : DB) (st : Stats) (row : Row)
    (pd : ProduitData)
    (hb : buildProduitData m (supplierStep m db st row).2.2 row = .ok pd)
    (hfind : db.produits.find? (fun q => q.reference == pd.reference && q.magasin == m) = none) :
    (processRow m i (db, st) row).1.produits = db.produits ++ [mkProduit db.nextId pd] ∧
    (processRow m i (db, st) row).2.produits_created = st.produits_created + 1 ∧
    (processRow m i (db, st) row).2.produits_updated = st.produits_updated := by
  have hsf := supplierStep_frame m db st row
  rw [processRow_ok m i db st row pd hb]
  have hfind2 : (supplierStep m db st row).1.produits.find?
      (fun q => q.reference == pd.reference && q.magasin == m) = none := by
    rw [hsf.1]
    exact hfind
  rw [produitStep_new m (supplierStep m db st row).1 (supplierStep m db st row).2.1 pd hfind2]
  refine ⟨?_, ?_, ?_⟩
  · rw [(stockPhase_frame m (supplierStep m db st row).1.nextId i _ _ row).2.1]
    dsimp only
    rw [hsf.1, hsf.2.2.1]
  · rw [(stockPhase_frame m (supplierStep m db st row).1.nextId i _ _ row).2.2.2.1]
    dsimp only
    rw [hsf.2.2.2.1]
  · rw [(stockPhase_frame m (supplierStep m db st row).1.nextId i _ _ row).2.2.2.2.1]
    dsimp only
    rw [hsf.2.2.2.2.1]

/-- C4: for a row whose cells convert, if the trimmed reference already names a
product of the caller store, the row updates in place — the multiset of stored
references is unchanged and produits_updated (not produits_created) is
incremented; if the reference is new to the store, a product with that trimmed
reference is appended and produits_created is incremented. -/
theorem C4_reference_immutable (m i : Nat) (db : DB) (st : Stats) (row : Row)
    (n r c : String) (hn : row.nom = some n) (hr : row.reference = some r)
    (hc : row.categorie = some c) (hp : cellFloatOk row.prix = true)
    (hsa : cellIntOk row.seuil_alerte = true) :
    (∀ p, db.produits.find? (fun q => q.reference == pyStrip r && q.magasin == m) = some p →
      (processRow m i (db, st) row).1.produits.map Produit.reference =
        db.produits.map Produit.reference ∧
      (processRow m i (db, st) row).2.produits_updated = st.produits_updated + 1 ∧
      (processRow m i (db, st) row).2.produits_created = st.produits_created) ∧
    (db.produits.find? (fun q => q.reference == pyStrip r && q.magasin == m) = none →
      (∃ pd : ProduitData, pd.reference = pyStrip r ∧
        (processRow m i (db, st) row).1.produits = db.produits ++ [mkProduit db.nextId pd]) ∧
      (processRow m i (db, st) row).2.produits_created = st.produits_created + 1 ∧
      (processRow m i (db, st) row).2.produits_updated = st.produits_updated) := by
  have hb := buildProduitData_ok m (supplierStep m db st row).2.2 row n r c hn hr hc hp hsa
  constructor
  · intro p hfind
    exact processRow_update_case m i db st row _ hb p hfind
  · intro hfind
    have h := processRow_create_case m i db st row _ hb hfind
    exact ⟨⟨_, rfl, h.1⟩, h.2.1, h.2.2⟩

/-- C4 witness: a reference new to an empty store creates a product and counts
it as created. -/
theorem C4_reference_immutable_witness :
    emptyDB.produits.find?
      (fun q => q.reference == pyStrip "R" && q.magasin == 0) = none ∧
    (processRow 0 0 (emptyDB, initStats)
      (mkRow (some "A") (some "R") (some "c") none none none none)).2.produits_created = 1 := by
  refine ⟨rfl, ?_⟩
  have h := (C4_reference_immutable 0 0 emptyDB initStats
      (mkRow (some "A") (some "R") (some "c") none none none none)
      "A" "R" "c" rfl rfl rfl rfl rfl).2 rfl
  rw [h.2.1]
  rfl

theorem processRow_stock_update_case (m i : Nat) (db : DB) (st : Stats) (row : Row)
    (pd : ProduitData)
    (hb : buildProduitData m (supplierStep m db st row).2.2 row = .ok pd)
    (p : Produit)
    (hfind : db.produits.find? (fun q => q.reference == pd.reference && q.magasin == m) = some p)
    (s : String) (k : Int) (hstk : row.stock = some s) (hk : pyInt? s = some k)
    (hkpos : 0 < k) (st0 : Stock)
    (hsfind : db.stocks.find? (fun t => t.produit == p.id && t.magasin == m) = some st0) :
    (processRow m i (db, st) row).1.stocks = addToFirstStock db.stocks p.id m k ∧
    (processRow m i (db, st) row).2.stocks_updated = st.stocks_updated + 1 ∧
    (processRow m i (db, st) row).2.stocks_created = st.stocks_created ∧
    (processRow m i (db, st) row).2.errors = st.errors := by
  have hsf := supplierStep_frame m db st row
  rw [processRow_ok m i db st row pd hb]
  have hfind2 : (supplierStep m db st row).1.produits.find?
      (fun q => q.reference == pd.reference && q.magasin == m) = some p := by
    rw [hsf.1]
    exact hfind
  rw [produitStep_found m (supplierStep m db st row).1 (supplierStep m db st row).2.1 pd p hfind2]
  have hsfind2 : ({ (supplierStep m db st row).1 with
      produits := saveProduit (supplierStep m db st row).1.produits p.id pd } : DB).stocks.find?
      (fun t => t.produit == p.id && t.magasin == m) = some st0 := by
    show (supplierStep m db st row).1.stocks.find?
      (fun t => t.produit == p.id && t.magasin == m) = some st0
    rw [hsf.2.1]
    exact hsfind
  rw [stockPhase_update m p.id i _ _ row s k hstk hk hkpos st0 hsfind2]
  refine ⟨?_, ?_, ?_, ?_⟩
  · dsimp only
    rw [hsf.2.1]
  · dsimp only
    rw [hsf.2.2.2.2.2.2.1]
  · dsimp only
    rw [hsf.2.2.2.2.2.1]
  · dsimp only
    rw [hsf.2.2.2.2.2.2.2]

/-- C5: when a row resolves (by trimmed reference) to a product of the caller
store that already has a stock record — as after an earlier row of the same run
— and its stock cell parses to a positive quantity k, that k is added
to the existing quantity rather than replacing it: the stock record becomes
its old quantity plus k, no stock record is created or removed, and
stocks_updated is incremented. -/
theorem C5_stock_accumulates (m i : Nat) (db : DB) (st : Stats) (row : Row)
    (n r c : String) (hn : row.nom = some n) (hr : row.reference = some r)
    (hc : row.categorie = some c) (hp : cellFloatOk row.prix = true)
    (hsa : cellIntOk row.seuil_alerte = true)
    (s : String) (k : Int) (hstk : row.stock = some s) (hk : pyInt? s = some k)
    (hkpos : 0 < k) (p : Produit)
    (hfind : db.produits.find? (fun q => q.reference == pyStrip r && q.magasin == m) = some p)
    (st0 : Stock)
    (hsfind : db.stocks.find? (fun t => t.produit == p.id && t.magasin == m) = some st0) :
    (processRow m i (db, st) row).1.stocks.find?
        (fun t => t.produit == p.id && t.magasin == m) =
      some { st0 with quantite := st0.quantite + k } ∧
    (processRow m i (db, st) row).1.stocks.length = db.stocks.length ∧
    (processRow m i (db, st) row).2.stocks_updated = st.stocks_updated + 1 ∧
    (processRow m i (db, st) row).2.stocks_created = st.stocks_created ∧
    (processRow m i (db, st) row).2.errors = st.errors := by
  have hb := buildProduitData_ok m (supplierStep m db st row).2.2 row n r c hn hr hc hp hsa
  have h := processRow_stock_update_case m i db st row _ hb p hfind s k hstk hk hkpos st0 hsfind
  refine ⟨?_, ?_, h.2.1, h.2.2.1, h.2.2.2⟩
  · rw [h.1]
    exact addToFirstStock_find db.stocks p.id m k st0 hsfind
  · rw [h.1]
    exact addToFirstStock_length db.stocks p.id m k

/-- C5 witness: a store holding product R with stock 3; a row for R with stock
cell "2" leaves the stock at 3 + 2 = 5. -/
theorem C5_stock_accumulates_witness :
    (processRow 0 0
        ({ fournisseurs := [],
           produits :=
             [{ id := 0, nom := "A", reference := "R", categorie := "c",
                prix_unitaire := 0, seuil_alerte := 0, fournisseur := none, magasin := 0 }],
           stocks := [{ produit := 0, magasin := 0, quantite := 3 }],
           nextId := 1 }, initStats)
        (mkRow (some "A") (some "R") (some "c") none none none (some "2"))).1.stocks.find?
      (fun t => t.produit == 0 && t.magasin == 0) =
      some { produit := 0, magasin := 0, quantite := 5 } := by
  have h := C5_stock_accumulates 0 0
      { fournisseurs := [],
        produits :=
          [{ id := 0, nom := "A", reference := "R", categorie := "c",
             prix_unitaire := 0, seuil_alerte := 0, fournisseur := none, magasin := 0 }],
        stocks := [{ produit := 0, magasin := 0, quantite := 3 }],
        nextId := 1 } initStats
      (mkRow (some "A") (some "R") (some "c") none none none (some "2"))
      "A" "R" "c" rfl rfl rfl rfl rfl
      "2" 2 rfl (by decide) (by decide)
      { id := 0, nom := "A", reference := "R", categorie := "c",
        prix_unitaire := 0, seuil_alerte := 0, fournisseur := none, magasin := 0 }
      (by decide)
      { produit := 0, magasin := 0, quantite := 3 } (by decide)
  exact h.1

/-- C8: a row whose supplier cell is absent, or blank after trimming, creates
no supplier record and leaves the suppliers-created counter untouched; the
supplier resolution yields no supplier, any successfully built candidate
product is linked to none, and every product present after the row either
predates it or is linked to no supplier. -/
theorem C8_blank_supplier (m i : Nat) (db : DB) (st : Stats) (row : Row)
    (hblank : row.fournisseur = none ∨ ∃ s, row.fournisseur = some s ∧ pyStrip s = "") :
    supplierStep m db st row = (db, st, none) ∧
    (processRow m i (db, st) row).1.fournisseurs = db.fournisseurs ∧
    (processRow m i (db, st) row).2.fournisseurs_created = st.fournisseurs_created ∧
    (∀ pd : ProduitData, buildProduitData m (supplierStep m db st row).2.2 row = .ok pd →
      pd.fournisseur = none) ∧
    (∀ p : Produit, p ∈ (processRow m i (db, st) row).1.produits →
      p ∈ db.produits ∨ p.fournisseur = none) := by
  have hss := supplierStep_blank m db st row hblank
  have hfour : (supplierStep m db st row).2.2 = none := by rw [hss]
  have hpr : processRow m i (db, st) row =
      match buildProduitData m none row with
      | .error e => (db, pushError st i e)
      | .ok pd => stockPhase m (produitStep m db st pd).2.2 i (produitStep m db st pd).1
          (produitStep m db st pd).2.1 row := by
    unfold processRow
    dsimp only
    rw [hss]
  refine ⟨hss, ?_, ?_, ?_, ?_⟩
  · rw [hpr]
    cases hb : buildProduitData m none row with
    | error e => rfl
    | ok pd =>
      rw [(stockPhase_frame m (produitStep m db st pd).2.2 i _ _ row).1,
        (produitStep_frame m db st pd).1]
  · rw [hpr]
    cases hb : buildProduitData m none row with
    | error e => simp [pushError]
    | ok pd =>
      rw [(stockPhase_frame m (produitStep m db st pd).2.2 i _ _ row).2.2.2.2.2,
        (produitStep_frame m db st pd).2.2.1]
  · intro pd hpd
    have h4 := buildProduitData_fournisseur m _ row pd hpd
    rw [hfour] at h4
    exact h4
  · intro p hp
    rw [hpr] at hp
    cases hb : buildProduitData m none row with
    | error e =>
      rw [hb] at hp
      exact Or.inl hp
    | ok pd =>
      rw [hb] at hp
      rw [(stockPhase_frame m (produitStep m db st pd).2.2 i _ _ row).2.1] at hp
      have hpdf : pd.fournisseur = none := buildProduitData_fournisseur m none row pd hb
      unfold produitStep at hp
      rcases hf : db.produits.find? (fun q => q.reference == pd.reference && q.magasin == m) with
        _ | q
      · rw [hf] at hp
        dsimp only at hp
        rcases List.mem_append.mp hp with h | h
        · exact Or.inl h
        · right
          rw [List.mem_singleton.mp h]
          exact hpdf
      · rw [hf] at hp
        dsimp only at hp
        rcases mem_saveProduit db.produits q.id pd p hp with h | h
        · exact Or.inl h
        · right
          rw [h, hpdf]

/-- C8 witness: a row with an absent supplier cell resolves no supplier and
changes nothing in the supplier table. -/
theorem C8_blank_supplier_witness :
    ((mkRow (some "A") (some "R") (some "c") none none none none).fournisseur = none ∨
      ∃ s, (mkRow (some "A") (some "R") (some "c") none none none none).fournisseur = some s ∧
        pyStrip s = "") ∧
    supplierStep 0 emptyDB initStats
        (mkRow (some "A") (some "R") (some "c") none none none none) =
      (emptyDB, initStats, none) :=
  ⟨Or.inl rfl,
   (C8_blank_supplier 0 0 emptyDB initStats
      (mkRow (some "A") (some "R") (some "c") none none none none) (Or.inl rfl)).1⟩

/-- C7: per-row fault isolation: every row appends at most one error entry,
always prefixed with the human row number index + 2; a row whose product build
raises appends exactly that entry; the loop always continues with the next
row; counters and the error list of the accumulated stats only grow over the
remaining rows; and once the guard, the loader and the column check pass, the
response is the success outcome carrying the stats of the full row loop. -/
theorem C7_row_fault_isolation :
    (∀ (m i : Nat) (db : DB) (st : Stats) (row : Row),
      ∃ o : Option String,
        (processRow m i (db, st) row).2.errors = st.errors ++ errorEntry i o) ∧
    (∀ (m i : Nat) (db : DB) (st : Stats) (row : Row) (e : String),
      buildProduitData m (supplierStep m db st row).2.2 row = .error e →
        (processRow m i (db, st) row).2.errors = st.errors ++ errorEntry i (some e)) ∧
    (∀ (m i : Nat) (acc : DB × Stats) (r : Row) (rs : List Row),
      processRowsFrom m i acc (r :: rs) =
        processRowsFrom m (i + 1) (processRow m i acc r) rs) ∧
    (∀ (m : Nat) (rows : List Row) (i : Nat) (acc : DB × Stats),
      statsLe acc.2 (processRowsFrom m i acc rows).2) ∧
    (∀ (user : User) (db : DB) (name : String) (df : Frame) (m : Nat),
      (user.role = some "manager" ∨ user.role = some "admin") →
      user.magasin = some m →
      (pyEndsWith name ".csv" ∨ pyEndsWith name ".xlsx" ∨ pyEndsWith name ".xls") →
      requiredColumns.filter (fun c => ¬ df.columns.contains c) = [] →
      (import_dataset user db (some { name := name, parsed := .ok df })) =
        (.ok "Import terminé" (processRows m db df.rows).2, (processRows m db df.rows).1)) := by
  refine ⟨processRow_errors, ?_, ?_, processRowsFrom_statsLe, import_dataset_ok⟩
  · intro m i db st row e hb
    rw [processRow_err m i db st row e hb]
    simp [pushError, errorEntry, (supplierStep_frame m db st row).2.2.2.2.2.2.2]
  · intro m i acc r rs
    rfl

/-- C7 witness: a row whose every cell is missing raises while building the
product and is recorded as exactly one row 2 entry. -/
theorem C7_row_fault_isolation_witness :
    buildProduitData 0
        (supplierStep 0 emptyDB initStats (mkRow none none none none none none none)).2.2
        (mkRow none none none none none none none) =
      .error "float object has no attribute strip" ∧
    (processRow 0 0 (emptyDB, initStats) (mkRow none none none none none none none)).2.errors =
      initStats.errors ++ errorEntry 0 (some "float object has no attribute strip") :=
  ⟨rfl,
   C7_row_fault_isolation.2.1 0 0 emptyDB initStats (mkRow none none none none none none none)
     "float object has no attribute strip" rfl⟩
